import Mathlib

/-!
Verification of the `DFComparator` tabular-diff engine (`compare_data.py`).

A pandas `DataFrame` is embedded as an ordered list of column names, a
parallel list of dtype-descriptor strings, and a list of rows; each cell is
`Option α` where `none` stands for a missing value (`NaN`/`None`).  Python
`round(x, 2)` on nonnegative floats is modelled as exact rational
half-up rounding to two decimals; a two-decimal percentage value is stored
losslessly as a natural number of hundredths of a percent (`round2Centi`,
so `50.0` percent is stored as `5000`), and the rational meaning of a
stored value `p` is `(p : ℚ) / 100`, related to the rational rounding
function `round2` by `round2Centi_decode`.  Python dicts keyed by column
name are modelled as association lists in construction order; sets of column
names are modelled as filtered lists (only membership and emptiness matter
downstream).  The real-time `timestamp` field of `generate_statistics` is
omitted from the embedding.  Column names are assumed distinct from the
internal provenance marker `df_origin`, which the source adds and removes
around the unchanged-row filtering; the filtering itself is embedded
directly on tagged row lists.
-/

namespace DFComparator

/-- A row: one optional cell per column, `none` = missing value. -/
abbrev Row (α : Type) := List (Option α)

/-- Embedding of a pandas DataFrame: ordered named typed columns and rows. -/
structure DataFrame (α : Type) where
  colNames : List String
  dtypes : List String
  rows : List (Row α)
deriving DecidableEq, Repr

/-- Does the character list `hay` start with `needle`? -/
def strStartsWith : List Char → List Char → Bool
  | _, [] => true
  | [], _ :: _ => false
  | c :: cs, d :: ds => c == d && strStartsWith cs ds

/-- Does the character list `hay` contain `needle` as a contiguous run? -/
def strContainsAux : List Char → List Char → Bool
  | [], needle => needle.isEmpty
  | c :: cs, needle => strStartsWith (c :: cs) needle || strContainsAux cs needle

/-- Python's `t in s` substring test. -/
def strContains (hay needle : String) : Bool :=
  strContainsAux hay.data needle.data

/-- `numeric_types` set from `_are_types_compatible` (line 16). -/
def numericTypes : List String := ["int", "uint", "float", "bool"]

/-- `string_types` set from `_are_types_compatible` (line 24). -/
def stringTypes : List String := ["object", "string", "str"]

/-- `datetime_types` set from `_are_types_compatible` (line 32). -/
def datetimeTypes : List String := ["datetime", "datetime64", "timestamp"]

/-- `is_numeric1` / `is_numeric2` flags: some numeric tag occurs in the lowered dtype. -/
def isNumericDtype (s : String) : Bool := numericTypes.any (fun t => strContains s t)

/-- `is_string1` / `is_string2` flags. -/
def isStringDtype (s : String) : Bool := stringTypes.any (fun t => strContains s t)

/-- `is_datetime1` / `is_datetime2` flags. -/
def isDatetimeDtype (s : String) : Bool := datetimeTypes.any (fun t => strContains s t)

/-- `DFComparator._are_types_compatible` (lines 10-43): lowercase both
descriptors, then test the numeric, textual and temporal families in order,
falling back to exact equality. -/
def areTypesCompatible (dtype1 dtype2 : String) : Bool :=
  if isNumericDtype dtype1.toLower && isNumericDtype dtype2.toLower then true
  else if isStringDtype dtype1.toLower && isStringDtype dtype2.toLower then true
  else if isDatetimeDtype dtype1.toLower && isDatetimeDtype dtype2.toLower then true
  else if dtype1.toLower == dtype2.toLower then true
  else false

/-- Output of `compare_schema`: a type-change entry is
`(column, previous dtype, current dtype)`. -/
structure SchemaDiff where
  added_columns : List String
  removed_columns : List String
  type_changes : List (String × String × String)
  total_columns_current : Nat
  total_columns_previous : Nat
deriving DecidableEq, Repr

/-- The dtype string of column `c` of `df` (`str(df[c].dtype)`). -/
def dtypeAt {α : Type} (df : DataFrame α) (c : String) : String :=
  match df.colNames.findIdx? (fun n => n == c) with
  | some i => df.dtypes.getD i ""
  | none => ""

/-- `DFComparator.compare_schema` (lines 45-67). -/
def compareSchema {α : Type} (cur prev : DataFrame α) : SchemaDiff :=
  { added_columns := cur.colNames.filter (fun c => !(prev.colNames.contains c))
    removed_columns := prev.colNames.filter (fun c => !(cur.colNames.contains c))
    type_changes :=
      (cur.colNames.filter (fun c => prev.colNames.contains c)).filterMap (fun c =>
        if dtypeAt cur c ≠ dtypeAt prev c
        then some (c, dtypeAt prev c, dtypeAt cur c) else none)
    total_columns_current := cur.colNames.length
    total_columns_previous := prev.colNames.length }

/-- `row_count_change` entry of a value diff. -/
structure RowCountChange where
  previous : Nat
  current : Nat
  difference : Int
deriving DecidableEq, Repr

/-- A per-column `{changed_rows, percentage}` entry; `percentage` is the
two-decimal percentage stored in hundredths of a percent. -/
structure ColChange where
  changed_rows : Nat
  percentage : Nat
deriving DecidableEq, Repr

/-- Output of `compare_values`; `none` fields model keys absent from the
returned dict (the row-count short-circuit returns only `row_count_change`);
`percentage_row_change` is stored in hundredths of a percent. -/
structure ValueDiff where
  row_count_change : RowCountChange
  percentage_row_change : Option Nat
  columns_with_value_changes : Option (List (String × ColChange))
deriving DecidableEq, Repr

/-- A Python `KeyError` carrying the offending column name. -/
structure KeyErr where
  col : String
deriving DecidableEq, Repr

/-- Exact half-up rounding of a rational to two decimals: the meaning of
Python `round(q, 2)` for the nonnegative ratios produced here. -/
def round2 (q : ℚ) : ℚ := ((⌊q * 100 + 1 / 2⌋ : ℤ) : ℚ) / 100

/-- `round((num / den) * 100, 2)` computed exactly in hundredths of a
percent: half-up rounding of `10000 * num / den` to the nearest integer. -/
def round2Centi (num den : Nat) : Nat := (20000 * num + den) / (2 * den)

/-- pandas null-safe cell equality `(a == b) | (isna(a) & isna(b))`. -/
def nullSafeEq {α : Type} [DecidableEq α] (a b : Option α) : Bool :=
  match a, b with
  | some x, some y => decide (x = y)
  | none, none => true
  | _, _ => false

/-- Columns of `schema_diff.type_changes` whose dtype pair is judged
incompatible (lines 91-96). -/
def incompatibleTypeCols (sd : SchemaDiff) : List String :=
  (sd.type_changes.filter (fun tc => !(areTypesCompatible tc.2.1 tc.2.2))).map (fun tc => tc.1)

/-- `common_cols` (line 98): columns of both tables minus incompatible ones. -/
def commonColsOf {α : Type} (sd : SchemaDiff) (cur prev : DataFrame α) : List String :=
  cur.colNames.filter (fun c =>
    prev.colNames.contains c && !((incompatibleTypeCols sd).contains c))

/-- The cell of row `r` (laid out by `colNames`) at column `c`. -/
def cellAt {α : Type} (colNames : List String) (r : Row α) (c : String) : Option α :=
  match colNames.findIdx? (fun n => n == c) with
  | some i => r.getD i none
  | none => none

/-- `df[cols]`: every row of `df` projected to the columns `cols`, in order. -/
def projectRows {α : Type} (df : DataFrame α) (cols : List String) : List (Row α) :=
  df.rows.map (fun r => cols.map (fun c => cellAt df.colNames r c))

/-- Unchanged-row filtering, current side (lines 99-106): concatenate the two
projections tagged with their provenance and `drop_duplicates(subset=cols,
keep=False)` — a projected row survives iff it occurs exactly once in the
whole concatenation. -/
def filteredCurrent {α : Type} [DecidableEq α] (cur prev : DataFrame α)
    (cols : List String) : List (Row α) :=
  (projectRows cur cols).filter
    (fun r => (projectRows cur cols ++ projectRows prev cols).count r == 1)

/-- Unchanged-row filtering, previous side (lines 99-106). -/
def filteredPrevious {α : Type} [DecidableEq α] (cur prev : DataFrame α)
    (cols : List String) : List (Row α) :=
  (projectRows prev cols).filter
    (fun r => (projectRows cur cols ++ projectRows prev cols).count r == 1)

/-- The tuple of primary-key cells of a row (the index after `set_index`). -/
def pkTuple {α : Type} (cols pks : List String) (r : Row α) : Row α :=
  pks.map (fun c => cellAt cols r c)

/-- Fast-path mismatch count for one column (lines 124-126): positional
comparison of the two filtered sides under null-safe equality. -/
def fastMismatchCount {α : Type} [DecidableEq α] (cols : List String)
    (filtC filtP : List (Row α)) (col : String) : Nat :=
  (filtC.zip filtP).countP
    (fun p => !(nullSafeEq (cellAt cols p.1 col) (cellAt cols p.2 col)))

/-- The `indicator == both` rows of `previous.merge(current, on=pks,
how=outer)` (lines 140-142): all previous-by-current row pairs agreeing on
the key tuple. -/
def mergeBothPairs {α : Type} [DecidableEq α] (cols pks : List String)
    (filtC filtP : List (Row α)) : List (Row α × Row α) :=
  filtP.flatMap (fun rp =>
    (filtC.filter (fun rc => pkTuple cols pks rc == pkTuple cols pks rp)).map
      (fun rc => (rp, rc)))

/-- Fallback mismatch count for one column (lines 149-151). -/
def fallbackMismatchCount {α : Type} [DecidableEq α] (cols pks : List String)
    (filtC filtP : List (Row α)) (col : String) : Nat :=
  (mergeBothPairs cols pks filtC filtP).countP
    (fun p => !(nullSafeEq (cellAt cols p.1 col) (cellAt cols p.2 col)))

/-- A `{changed_rows, percentage}` entry (lines 131-135 and 152-156). -/
def colEntry (currentLen neq : Nat) : ColChange :=
  { changed_rows := neq
    percentage := if currentLen ≠ 0 then round2Centi neq currentLen else 0 }

/-- The `value_changes` dict of `compare_values` (lines 108-156): empty when
no primary key is declared; a `KeyError` when some key column is missing from
the filtered common columns; otherwise the fast path when the two key-tuple
sequences are identical (pandas raises `ValueError` on `==` of Series whose
index labels differ, landing in the fallback), else the merge fallback. -/
def valueChangesOf {α : Type} [DecidableEq α] (cols pks : List String)
    (filtC filtP : List (Row α)) (currentLen : Nat) :
    Except KeyErr (List (String × ColChange)) :=
  if pks.isEmpty then .ok []
  else
    match pks.find? (fun pk => !(cols.contains pk)) with
    | some pk => .error ⟨pk⟩
    | none =>
      if filtC.map (pkTuple cols pks) == filtP.map (pkTuple cols pks) then
        .ok ((cols.filter (fun c => !(pks.contains c))).filterMap (fun col =>
          if 0 < fastMismatchCount cols filtC filtP col
          then some (col, colEntry currentLen (fastMismatchCount cols filtC filtP col))
          else none))
      else
        .ok ((cols.filter (fun c => !(pks.contains c))).filterMap (fun col =>
          if 0 < fallbackMismatchCount cols pks filtC filtP col
          then some (col, colEntry currentLen (fallbackMismatchCount cols pks filtC filtP col))
          else none))

/-- `DFComparator.compare_values` (lines 69-167). -/
def compareValues {α : Type} [DecidableEq α] (sd : SchemaDiff)
    (cur prev : DataFrame α) (pks : List String) : Except KeyErr ValueDiff :=
  if cur.rows.length ≠ prev.rows.length then
    .ok { row_count_change :=
            { previous := prev.rows.length
              current := cur.rows.length
              difference := (cur.rows.length : Int) - (prev.rows.length : Int) }
          percentage_row_change := none
          columns_with_value_changes := none }
  else if cur.rows.length = 0 ∧ prev.rows.length = 0 then
    .ok { row_count_change := { previous := 0, current := 0, difference := 0 }
          percentage_row_change := some 0
          columns_with_value_changes := some [] }
  else
    match valueChangesOf (commonColsOf sd cur prev) pks
        (filteredCurrent cur prev (commonColsOf sd cur prev))
        (filteredPrevious cur prev (commonColsOf sd cur prev)) cur.rows.length with
    | .error e => .error e
    | .ok vc =>
      .ok { row_count_change :=
              { previous := prev.rows.length
                current := cur.rows.length
                difference := (cur.rows.length : Int) - (prev.rows.length : Int) }
            percentage_row_change :=
              some (if cur.rows.length ≠ 0 then
                round2Centi (filteredCurrent cur prev (commonColsOf sd cur prev)).length
                  cur.rows.length
              else 0)
            columns_with_value_changes := some vc }

/-- Output of `generate_statistics` (`summary` flattened into the last two
fields; the wall-clock `timestamp` is not modelled). -/
structure Statistics where
  schema_changes : SchemaDiff
  value_changes : ValueDiff
  potential_regression : Bool
  total_schema_issues : Nat
  value_changed_columns : Nat
deriving DecidableEq, Repr

/-- `DFComparator.generate_statistics` (lines 169-190). -/
def generateStatistics {α : Type} [DecidableEq α] (cur prev : DataFrame α)
    (pks : List String) : Except KeyErr Statistics :=
  let sd := compareSchema cur prev
  match compareValues sd cur prev pks with
  | .error e => .error e
  | .ok vd =>
    .ok { schema_changes := sd
          value_changes := vd
          potential_regression :=
            !sd.removed_columns.isEmpty ||
            !sd.type_changes.isEmpty ||
            decide (vd.row_count_change.difference < 0) ||
            !(vd.columns_with_value_changes.getD []).isEmpty
          total_schema_issues := sd.removed_columns.length + sd.type_changes.length
          value_changed_columns := (vd.columns_with_value_changes.getD []).length }

/-! ### Spec-side definitions and concrete inputs used by the claims -/

/-- Modelled from the spec's description of the type-compatibility
classifier (§4.1): lowercase both descriptors, then compatibility is the
disjunction of shared membership in the numeric, textual and temporal
families, falling back to exact string match. -/
def typesCompatibleSpec (dtype1 dtype2 : String) : Bool :=
  (["int", "uint", "float", "bool"].any (fun t => strContains dtype1.toLower t) &&
     ["int", "uint", "float", "bool"].any (fun t => strContains dtype2.toLower t)) ||
  (["object", "string", "str"].any (fun t => strContains dtype1.toLower t) &&
     ["object", "string", "str"].any (fun t => strContains dtype2.toLower t)) ||
  (["datetime", "datetime64", "timestamp"].any (fun t => strContains dtype1.toLower t) &&
     ["datetime", "datetime64", "timestamp"].any (fun t => strContains dtype2.toLower t)) ||
  dtype1.toLower == dtype2.toLower

/-- Current table for the C1 counterexample: the row `[1]` twice. -/
def c1Cur : DataFrame Int := ⟨["a"], ["int64"], [[some 1], [some 1]]⟩

/-- Previous table for the C1 counterexample: rows `[2]`, `[3]`. -/
def c1Prev : DataFrame Int := ⟨["a"], ["int64"], [[some 2], [some 3]]⟩

/-- Current table for the C2 counterexample (1 row). -/
def c2Cur : DataFrame Int := ⟨["a"], ["int64"], [[some 1]]⟩

/-- Previous table for the C2 counterexample (2 rows). -/
def c2Prev : DataFrame Int := ⟨["a"], ["int64"], [[some 1], [some 2]]⟩

/-- Current table for the C2 amended-claim witness. -/
def c2wCur : DataFrame Int := ⟨["a"], ["int64"], [[some 1]]⟩

/-- Previous table for the C2 amended-claim witness. -/
def c2wPrev : DataFrame Int := ⟨["a"], ["int64"], [[some 2]]⟩

/-- Current table for the C3 witness: a pure row-count increase. -/
def c3Cur : DataFrame Int := ⟨["a"], ["int64"], [[some 1], [some 2]]⟩

/-- Previous table for the C3 witness. -/
def c3Prev : DataFrame Int := ⟨["a"], ["int64"], [[some 1]]⟩

/-- The statistics produced for the C3 witness tables: row count up by one,
nothing else changed, regression flag off. -/
def c3St : Statistics := ⟨⟨[], [], [], 1, 1⟩, ⟨⟨1, 2, 1⟩, none, none⟩, false, 0, 0⟩

/-- Modelled from the spec's description of the fast path (§4.2 step 5b):
for every non-key column, compare the two filtered sides elementwise at
matching positions under null-safe equality (`a = b` or both missing),
record an entry only when the mismatch count is nonzero, with
`changed_rows` the count and `percentage` the count over `origLen`
(the pre-filter current row count) times 100, rounded to 2 decimals. -/
def fastPathSpec {α : Type} [DecidableEq α] (cols pks : List String)
    (filtC filtP : List (Row α)) (origLen : Nat) : List (String × ColChange) :=
  (cols.filter (fun c => !(pks.contains c))).filterMap (fun col =>
    let neq := (filtC.zip filtP).countP (fun p =>
      !(decide (cellAt cols p.1 col = cellAt cols p.2 col ∨
        (cellAt cols p.1 col = none ∧ cellAt cols p.2 col = none))))
    if 0 < neq then some (col, ⟨neq, round2Centi neq origLen⟩) else none)

/-- Modelled from the spec's description of the merge fallback (§4.2 step
5b-failure): compare only the row pairs present on both sides of the outer
merge (`indicator == both`), with the same null-safe equality and counting
as the fast path. -/
def fallbackSpec {α : Type} [DecidableEq α] (cols pks : List String)
    (filtC filtP : List (Row α)) (origLen : Nat) : List (String × ColChange) :=
  (cols.filter (fun c => !(pks.contains c))).filterMap (fun col =>
    let neq := (mergeBothPairs cols pks filtC filtP).countP (fun p =>
      !(decide (cellAt cols p.1 col = cellAt cols p.2 col ∨
        (cellAt cols p.1 col = none ∧ cellAt cols p.2 col = none))))
    if 0 < neq then some (col, ⟨neq, round2Centi neq origLen⟩) else none)

/-- Current table for the C5 witness (the spec's worked example, extended
with an unchanged row). -/
def c5Cur : DataFrame Int :=
  ⟨["id", "val"], ["int64", "int64"], [[some 1, some 11], [some 2, some 20]]⟩

/-- Previous table for the C5 witness. -/
def c5Prev : DataFrame Int :=
  ⟨["id", "val"], ["int64", "int64"], [[some 1, some 10], [some 2, some 20]]⟩

/-- Current table for the C6 witness. -/
def c6Cur : DataFrame Int :=
  ⟨["id", "val"], ["int64", "int64"], [[some 1, some 10], [some 2, some 20]]⟩

/-- Previous table for the C6 witness: the same rows in the other order. -/
def c6Prev : DataFrame Int :=
  ⟨["id", "val"], ["int64", "int64"], [[some 2, some 20], [some 1, some 10]]⟩

/-- Current table for the C9 witness: the key value `1` is duplicated. -/
def c9Cur : DataFrame Int :=
  ⟨["id", "v"], ["int64", "int64"], [[some 1, some 30], [some 1, some 40]]⟩

/-- Previous table for the C9 witness: keys `1`, `2`, so the filtered
key-tuple sequences disagree and direct index alignment fails. -/
def c9Prev : DataFrame Int :=
  ⟨["id", "v"], ["int64", "int64"], [[some 1, some 10], [some 2, some 20]]⟩

/-- Current table for the C8 witness: rows `[1]`, `[2]`. -/
def c8Cur : DataFrame Int := ⟨["a"], ["int64"], [[some 1], [some 2]]⟩

/-- Previous table for the C8 witness: rows `[2]`, `[3]`; the shared row
`[2]` is filtered out of both sides, so 1 of the 2 current rows survives. -/
def c8Prev : DataFrame Int := ⟨["a"], ["int64"], [[some 2], [some 3]]⟩

/-- The value diff produced for the C8 witness tables: 50.00 percent of the
original current rows survived the filtering. -/
def c8Diff : ValueDiff := ⟨⟨2, 2, 0⟩, some 5000, some []⟩

/-! ### Helper lemmas -/

/-- Decoding a stored hundredths-of-a-percent value: `round2Centi num den`
divided by `100` is exactly the rational `num / den * 100` rounded half-up
to two decimals. -/
theorem round2Centi_decode (num den : Nat) (hden : den ≠ 0) :
    ((round2Centi num den : Nat) : ℚ) / 100 = round2 ((num : ℚ) / (den : ℚ) * 100) := by
  have hd : ((den : ℚ)) ≠ 0 := Nat.cast_ne_zero.mpr hden
  have hq : ((num : ℚ) / (den : ℚ) * 100) * 100 + 1 / 2
      = ((20000 * num + den : ℕ) : ℚ) / ((2 * den : ℕ) : ℚ) := by
    push_cast
    field_simp
    ring
  unfold round2 round2Centi
  rw [hq, Rat.floor_natCast_div_natCast, ← Int.natCast_div, Int.cast_natCast]

/-- Counting in a filtered list: occurrences survive iff the predicate
holds of the counted value. -/
theorem count_filter_ite {β : Type} [BEq β] [LawfulBEq β] (p : β → Bool) (l : List β) (a : β) :
    (l.filter p).count a = if p a then l.count a else 0 := by
  by_cases h : p a = true
  · rw [if_pos h, List.count_filter h]
  · rw [if_neg h, List.count_eq_zero]
    intro hmem
    exact h ((List.mem_filter.mp hmem).2)

/-- The boolean null-safe equality decides the proposition
`a = b ∨ (a and b are both missing)`. -/
theorem nullSafeEq_eq_decide {α : Type} [DecidableEq α] (a b : Option α) :
    nullSafeEq a b = decide (a = b ∨ (a = none ∧ b = none)) := by
  cases a <;> cases b <;> simp [nullSafeEq]

/-! ### C7 -/

/-- C7: when the two row counts differ, `compare_values` short-circuits and
returns a result containing only `row_count_change`, whose `difference` is
the current length minus the previous length; the per-column analysis keys
are absent and no error is raised. -/
theorem c7_row_count_short_circuit {α : Type} [DecidableEq α] (sd : SchemaDiff)
    (cur prev : DataFrame α) (pks : List String)
    (hlen : cur.rows.length ≠ prev.rows.length) :
    compareValues sd cur prev pks =
      .ok { row_count_change :=
              { previous := prev.rows.length
                current := cur.rows.length
                difference := (cur.rows.length : Int) - (prev.rows.length : Int) }
            percentage_row_change := none
            columns_with_value_changes := none } := by
  unfold compareValues
  rw [if_pos hlen]

/-- Witness for C7: one current row against two previous rows, with a
declared key missing from both tables. -/
theorem c7_row_count_short_circuit_witness :
    compareValues ⟨[], [], [], 1, 1⟩ (⟨["a"], ["int64"], [[some 1]]⟩ : DataFrame Int)
        ⟨["a"], ["int64"], [[some 1], [some 2]]⟩ ["id"] =
      .ok { row_count_change := { previous := 2, current := 1, difference := -1 }
            percentage_row_change := none
            columns_with_value_changes := none } :=
  c7_row_count_short_circuit _ _ _ _ (by decide)

/-! ### C10 -/

/-- C10: the primary-key validation of `compare_values` sits after the
row-count-equality and both-empty early returns, so whenever the row counts
differ, or both tables are empty, `compare_values` returns a normal result
and raises no error, whatever the declared primary keys are. -/
theorem c10_validation_after_early_returns {α : Type} [DecidableEq α] (sd : SchemaDiff)
    (cur prev : DataFrame α) (pks : List String)
    (h : cur.rows.length ≠ prev.rows.length ∨ (cur.rows = [] ∧ prev.rows = [])) :
    ∃ d, compareValues sd cur prev pks = .ok d := by
  unfold compareValues
  rcases h with h | ⟨hc, hp⟩
  · rw [if_pos h]
    exact ⟨_, rfl⟩
  · rw [if_neg (by simp [hc, hp]), if_pos (by simp [hc, hp])]
    exact ⟨_, rfl⟩

/-- Witness for C10: the declared key `id` is absent from both tables, yet
the 1-row-versus-2-rows comparison returns a result. -/
theorem c10_validation_after_early_returns_witness :
    "id" ∉ (⟨["a"], ["int64"], [[some 1]]⟩ : DataFrame Int).colNames ∧
    ∃ d, compareValues ⟨[], [], [], 1, 1⟩ (⟨["a"], ["int64"], [[some 1]]⟩ : DataFrame Int)
        ⟨["a"], ["int64"], [[some 1], [some 2]]⟩ ["id"] = .ok d :=
  ⟨by decide, c10_validation_after_early_returns _ _ _ _ (Or.inl (by decide))⟩

/-! ### C4 -/

/-- A guarded if-then-else chain of four tests is their disjunction. -/
theorem bool_ite_chain (a b c d : Bool) :
    (if a then true else if b then true else if c then true else if d then true else false)
      = (a || b || c || d) := by
  cases a <;> cases b <;> cases c <;> cases d <;> rfl

/-- C4: the type-compatibility classifier agrees everywhere with the spec's
description — lowercase both descriptors, then compatible iff both carry a
numeric tag, or both a textual tag, or both a temporal tag, or the lowered
strings are equal; being a Lean function it is a pure function of the two
strings. -/
theorem c4_type_compatibility_classifier (d1 d2 : String) :
    areTypesCompatible d1 d2 = typesCompatibleSpec d1 d2 := by
  unfold areTypesCompatible
  rw [bool_ite_chain]
  rfl

/-! ### C1 -/

/-- C1 counterexample: in `c1Cur` the row `[1]` occurs twice and has no
identical counterpart in `c1Prev`, yet no occurrence survives the
unchanged-row filtering (`drop_duplicates(keep=False)` also drops rows
duplicated within one side), and the fraction of surviving current rows
reported by `compare_values` is `0`, not `100`. -/
theorem c1_counterexample :
    (projectRows c1Cur (commonColsOf (compareSchema c1Cur c1Prev) c1Cur c1Prev)).count
        [some 1] = 2 ∧
    (projectRows c1Prev (commonColsOf (compareSchema c1Cur c1Prev) c1Cur c1Prev)).count
        [some 1] = 0 ∧
    filteredCurrent c1Cur c1Prev (commonColsOf (compareSchema c1Cur c1Prev) c1Cur c1Prev)
      = [] ∧
    compareValues (compareSchema c1Cur c1Prev) c1Cur c1Prev [] =
      .ok ⟨⟨2, 2, 0⟩, some 0, some []⟩ :=
  ⟨by decide, by decide, by decide, by rfl⟩

/-- C1 amended: in the unchanged-row filtering step a row occurrence
survives on a side iff its projection onto the compatible common columns
occurs exactly once in the concatenation of both projected sides — so a row
is dropped not only when an identical row appears on the other side, but
also when it is duplicated within its own side, even without a counterpart
on the other side. -/
theorem c1_amended_global_uniqueness {α : Type} [DecidableEq α] (cur prev : DataFrame α)
    (cols : List String) (r : Row α) :
    (filteredCurrent cur prev cols).count r
        = (if (projectRows cur cols ++ projectRows prev cols).count r = 1
           then (projectRows cur cols).count r else 0) ∧
    (filteredPrevious cur prev cols).count r
        = (if (projectRows cur cols ++ projectRows prev cols).count r = 1
           then (projectRows prev cols).count r else 0) := by
  constructor
  · unfold filteredCurrent
    rw [count_filter_ite]
    by_cases h : (projectRows cur cols ++ projectRows prev cols).count r = 1 <;>
      simp [h]
  · unfold filteredPrevious
    rw [count_filter_ite]
    by_cases h : (projectRows cur cols ++ projectRows prev cols).count r = 1 <;>
      simp [h]

/-! ### C2 -/

/-- C2 counterexample: the declared key `id` is absent from both tables,
but because the row counts differ `compare_values` returns the short-circuit
result instead of failing — the key validation is never reached. -/
theorem c2_counterexample :
    "id" ∉ c2Cur.colNames ∧ "id" ∉ c2Prev.colNames ∧
    compareValues (compareSchema c2Cur c2Prev) c2Cur c2Prev ["id"] =
      .ok ⟨⟨2, 1, -1⟩, none, none⟩ :=
  ⟨by decide, by decide, by rfl⟩

/-- C2 amended: when the row counts are equal and the tables are not both
empty, a declared primary-key column absent from either table makes
`compare_values` fail with a `KeyError` naming a primary-key column (the
first declared key missing from the filtered common columns), and no diff
result is returned. -/
theorem c2_amended_missing_key_errors {α : Type} [DecidableEq α] (sd : SchemaDiff)
    (cur prev : DataFrame α) (pks : List String) (pk : String) (hmem : pk ∈ pks)
    (habs : pk ∉ cur.colNames ∨ pk ∉ prev.colNames)
    (hlen : cur.rows.length = prev.rows.length)
    (hne : ¬(cur.rows.length = 0 ∧ prev.rows.length = 0)) :
    ∃ c ∈ pks, compareValues sd cur prev pks = .error ⟨c⟩ := by
  have hnotin : pk ∉ commonColsOf sd cur prev := by
    intro hin
    have h1 := List.mem_filter.mp hin
    rcases habs with h | h
    · exact h h1.1
    · have h2 := h1.2
      simp only [Bool.and_eq_true, Bool.not_eq_true'] at h2
      exact h (by simpa using h2.1)
  have hsome : (pks.find? (fun c => !((commonColsOf sd cur prev).contains c))).isSome := by
    rw [List.find?_isSome]
    exact ⟨pk, hmem, by simpa using hnotin⟩
  obtain ⟨c, hc⟩ := Option.isSome_iff_exists.mp hsome
  refine ⟨c, List.mem_of_find?_eq_some hc, ?_⟩
  have hvc : valueChangesOf (commonColsOf sd cur prev) pks
      (filteredCurrent cur prev (commonColsOf sd cur prev))
      (filteredPrevious cur prev (commonColsOf sd cur prev)) cur.rows.length
      = .error ⟨c⟩ := by
    unfold valueChangesOf
    rw [if_neg (by simp [List.isEmpty_eq_false.mpr (List.ne_nil_of_mem hmem)]), hc]
  unfold compareValues
  rw [if_neg (by simp [hlen]), if_neg hne, hvc]

/-- Witness for the amended C2: key `id` declared, absent from both 1-row
tables, and `compare_values` errors on it. -/
theorem c2_amended_missing_key_errors_witness :
    ∃ c ∈ ["id"], compareValues (compareSchema c2wCur c2wPrev) c2wCur c2wPrev ["id"]
      = .error ⟨c⟩ :=
  c2_amended_missing_key_errors (compareSchema c2wCur c2wPrev) c2wCur c2wPrev ["id"] "id"
    (by decide) (Or.inl (by decide)) (by decide) (by decide)

/-! ### C3 -/

/-- C3: the regression flag of `generate_statistics` is true iff some column
was removed, or some type change (compatible or not) was recorded, or the
row-count difference is negative, or some column shows value changes. -/
theorem c3_regression_flag {α : Type} [DecidableEq α] (cur prev : DataFrame α)
    (pks : List String) (st : Statistics)
    (hd : generateStatistics cur prev pks = .ok st) :
    (st.potential_regression = true) ↔
      (st.schema_changes.removed_columns ≠ [] ∨
       st.schema_changes.type_changes ≠ [] ∨
       st.value_changes.row_count_change.difference < 0 ∨
       st.value_changes.columns_with_value_changes.getD [] ≠ []) := by
  cases hcv : compareValues (compareSchema cur prev) cur prev pks with
  | error e =>
    simp only [generateStatistics, hcv] at hd
    exact Except.noConfusion hd
  | ok vd =>
    simp only [generateStatistics, hcv, Except.ok.injEq] at hd
    subst hd
    simp only [Bool.or_eq_true, Bool.not_eq_true', List.isEmpty_eq_false, decide_eq_true_eq,
      ne_eq]
    tauto

/-- Witness for C3 at a pure row-count increase: the flag is off and every
disjunct is false. -/
theorem c3_regression_flag_witness :
    (c3St.potential_regression = true) ↔
      (c3St.schema_changes.removed_columns ≠ [] ∨
       c3St.schema_changes.type_changes ≠ [] ∨
       c3St.value_changes.row_count_change.difference < 0 ∨
       c3St.value_changes.columns_with_value_changes.getD [] ≠ []) :=
  c3_regression_flag c3Cur c3Prev [] c3St rfl

/-! ### C8 -/

/-- C8: whenever `compare_values` reaches the full-diff path (equal row
counts, not both empty) and returns a result, its `percentage_row_change`
decodes to the number of current rows surviving the unchanged-row filtering,
divided by the original, pre-filter current row count, times 100, rounded to
two decimals. -/
theorem c8_percentage_row_change {α : Type} [DecidableEq α] (sd : SchemaDiff)
    (cur prev : DataFrame α) (pks : List String) (d : ValueDiff)
    (hlen : cur.rows.length = prev.rows.length)
    (hne : ¬(cur.rows.length = 0 ∧ prev.rows.length = 0))
    (hd : compareValues sd cur prev pks = .ok d) :
    ∃ p, d.percentage_row_change = some p ∧
      (p : ℚ) / 100 =
        round2 (((filteredCurrent cur prev (commonColsOf sd cur prev)).length : ℚ)
          / (cur.rows.length : ℚ) * 100) := by
  have hc0 : cur.rows.length ≠ 0 := by omega
  unfold compareValues at hd
  rw [if_neg (by omega : ¬(cur.rows.length ≠ prev.rows.length)), if_neg hne] at hd
  cases hvc : valueChangesOf (commonColsOf sd cur prev) pks
      (filteredCurrent cur prev (commonColsOf sd cur prev))
      (filteredPrevious cur prev (commonColsOf sd cur prev)) cur.rows.length with
  | error e =>
    simp only [hvc] at hd
    exact Except.noConfusion hd
  | ok vc =>
    simp only [hvc, Except.ok.injEq] at hd
    subst hd
    refine ⟨round2Centi (filteredCurrent cur prev (commonColsOf sd cur prev)).length
        cur.rows.length, ?_, round2Centi_decode _ _ hc0⟩
    simp [hc0]

/-- Witness for C8: of the two current rows one survives the filtering, and
the reported percentage is 50.00 percent of the original two rows (not 100
percent of the one filtered row). -/
theorem c8_percentage_row_change_witness :
    ∃ p, c8Diff.percentage_row_change = some p ∧
      (p : ℚ) / 100 =
        round2 (((filteredCurrent c8Cur c8Prev
            (commonColsOf (compareSchema c8Cur c8Prev) c8Cur c8Prev)).length : ℚ)
          / (c8Cur.rows.length : ℚ) * 100) :=
  c8_percentage_row_change (compareSchema c8Cur c8Prev) c8Cur c8Prev [] c8Diff rfl
    (by decide) rfl

/-! ### C5 -/

/-- Packaging lemma for the full-diff path of `compare_values`. -/
theorem compareValues_full {α : Type} [DecidableEq α] (sd : SchemaDiff)
    (cur prev : DataFrame α) (pks : List String) (vc : List (String × ColChange))
    (hlen : cur.rows.length = prev.rows.length)
    (hne : ¬(cur.rows.length = 0 ∧ prev.rows.length = 0))
    (hvc : valueChangesOf (commonColsOf sd cur prev) pks
      (filteredCurrent cur prev (commonColsOf sd cur prev))
      (filteredPrevious cur prev (commonColsOf sd cur prev)) cur.rows.length = .ok vc) :
    compareValues sd cur prev pks =
      .ok { row_count_change :=
              { previous := prev.rows.length
                current := cur.rows.length
                difference := (cur.rows.length : Int) - (prev.rows.length : Int) }
            percentage_row_change :=
              some (round2Centi
                (filteredCurrent cur prev (commonColsOf sd cur prev)).length
                cur.rows.length)
            columns_with_value_changes := some vc } := by
  have hc0 : cur.rows.length ≠ 0 := by omega
  unfold compareValues
  rw [if_neg (by omega : ¬(cur.rows.length ≠ prev.rows.length)), if_neg hne]
  simp only [hvc]
  simp [hc0]

/-- When the key-tuple sequences of the two filtered sides are identical
(indexing aligns), `valueChangesOf` takes the fast path and produces exactly
the spec-side fast-path list. -/
theorem valueChangesOf_fast {α : Type} [DecidableEq α] (cols pks : List String)
    (filtC filtP : List (Row α)) (currentLen : Nat)
    (hpks : pks ≠ [])
    (hvalid : ∀ pk ∈ pks, pk ∈ cols)
    (hkeys : filtC.map (pkTuple cols pks) = filtP.map (pkTuple cols pks))
    (hc0 : currentLen ≠ 0) :
    valueChangesOf cols pks filtC filtP currentLen =
      .ok (fastPathSpec cols pks filtC filtP currentLen) := by
  unfold valueChangesOf
  rw [if_neg (by simp [List.isEmpty_eq_false.mpr hpks])]
  have hfind : pks.find? (fun pk => !(cols.contains pk)) = none := by
    rw [List.find?_eq_none]
    intro x hx
    simp [hvalid x hx]
  simp only [hfind]
  rw [if_pos (by simp [hkeys])]
  refine congrArg Except.ok (List.filterMap_congr ?_)
  intro col hcol
  simp only [fastPathSpec, fastMismatchCount, nullSafeEq_eq_decide, colEntry]
  simp [hc0]

/-- C5: on the fast path (equal row counts, not both empty, all declared
keys among the common columns, identical key-tuple sequences on the two
filtered sides) `compare_values` succeeds and records exactly the spec-side
fast-path entries: per non-key column a null-safe positional mismatch count,
kept only when nonzero, with `changed_rows` the count and `percentage`
decoding to count over the pre-filter current row count times 100, rounded
to 2 decimals. -/
theorem c5_fast_path_null_safe_counts {α : Type} [DecidableEq α] (sd : SchemaDiff)
    (cur prev : DataFrame α) (pks : List String)
    (hlen : cur.rows.length = prev.rows.length)
    (hne : ¬(cur.rows.length = 0 ∧ prev.rows.length = 0))
    (hpks : pks ≠ [])
    (hvalid : ∀ pk ∈ pks, pk ∈ commonColsOf sd cur prev)
    (hkeys : (filteredCurrent cur prev (commonColsOf sd cur prev)).map
          (pkTuple (commonColsOf sd cur prev) pks)
        = (filteredPrevious cur prev (commonColsOf sd cur prev)).map
          (pkTuple (commonColsOf sd cur prev) pks)) :
    ∃ d, compareValues sd cur prev pks = .ok d ∧
      d.columns_with_value_changes = some
        (fastPathSpec (commonColsOf sd cur prev) pks
          (filteredCurrent cur prev (commonColsOf sd cur prev))
          (filteredPrevious cur prev (commonColsOf sd cur prev)) cur.rows.length) ∧
      ∀ c e, (c, e) ∈ fastPathSpec (commonColsOf sd cur prev) pks
          (filteredCurrent cur prev (commonColsOf sd cur prev))
          (filteredPrevious cur prev (commonColsOf sd cur prev)) cur.rows.length →
        0 < e.changed_rows ∧
        (e.percentage : ℚ) / 100 =
          round2 ((e.changed_rows : ℚ) / (cur.rows.length : ℚ) * 100) := by
  have hc0 : cur.rows.length ≠ 0 := by omega
  refine ⟨_, compareValues_full sd cur prev pks _ hlen hne
      (valueChangesOf_fast _ _ _ _ _ hpks hvalid hkeys hc0), rfl, ?_⟩
  intro c e hmem
  unfold fastPathSpec at hmem
  obtain ⟨col, hcol, hfeq⟩ := List.mem_filterMap.mp hmem
  dsimp only at hfeq
  split at hfeq
  next hpos =>
    simp only [Option.some.injEq, Prod.mk.injEq] at hfeq
    obtain ⟨rfl, rfl⟩ := hfeq
    exact ⟨hpos, round2Centi_decode _ _ hc0⟩
  next =>
    exact Option.noConfusion hfeq

/-- Witness for C5 at the spec's worked example: value `10 → 11` under key
`1`, the unchanged row dropped, entry `{changed_rows := 1, percentage :=
50.00}` of the original two rows. -/
theorem c5_fast_path_null_safe_counts_witness :
    ∃ d, compareValues (compareSchema c5Cur c5Prev) c5Cur c5Prev ["id"] = .ok d ∧
      d.columns_with_value_changes = some
        (fastPathSpec (commonColsOf (compareSchema c5Cur c5Prev) c5Cur c5Prev) ["id"]
          (filteredCurrent c5Cur c5Prev
            (commonColsOf (compareSchema c5Cur c5Prev) c5Cur c5Prev))
          (filteredPrevious c5Cur c5Prev
            (commonColsOf (compareSchema c5Cur c5Prev) c5Cur c5Prev))
          c5Cur.rows.length) ∧
      ∀ c e, (c, e) ∈ fastPathSpec (commonColsOf (compareSchema c5Cur c5Prev) c5Cur c5Prev)
          ["id"]
          (filteredCurrent c5Cur c5Prev
            (commonColsOf (compareSchema c5Cur c5Prev) c5Cur c5Prev))
          (filteredPrevious c5Cur c5Prev
            (commonColsOf (compareSchema c5Cur c5Prev) c5Cur c5Prev))
          c5Cur.rows.length →
        0 < e.changed_rows ∧
        (e.percentage : ℚ) / 100 =
          round2 ((e.changed_rows : ℚ) / (c5Cur.rows.length : ℚ) * 100) :=
  c5_fast_path_null_safe_counts (compareSchema c5Cur c5Prev) c5Cur c5Prev ["id"]
    rfl (by decide) (by decide) (by decide) rfl

/-! ### C9 -/

/-- When the key-tuple sequences of the two filtered sides differ (direct
index alignment fails), `valueChangesOf` takes the merge fallback and
produces exactly the spec-side fallback list. -/
theorem valueChangesOf_fallback {α : Type} [DecidableEq α] (cols pks : List String)
    (filtC filtP : List (Row α)) (currentLen : Nat)
    (hpks : pks ≠ [])
    (hvalid : ∀ pk ∈ pks, pk ∈ cols)
    (hkeys : filtC.map (pkTuple cols pks) ≠ filtP.map (pkTuple cols pks))
    (hc0 : currentLen ≠ 0) :
    valueChangesOf cols pks filtC filtP currentLen =
      .ok (fallbackSpec cols pks filtC filtP currentLen) := by
  unfold valueChangesOf
  rw [if_neg (by simp [List.isEmpty_eq_false.mpr hpks])]
  have hfind : pks.find? (fun pk => !(cols.contains pk)) = none := by
    rw [List.find?_eq_none]
    intro x hx
    simp [hvalid x hx]
  simp only [hfind]
  rw [if_neg (by simp [hkeys])]
  refine congrArg Except.ok (List.filterMap_congr ?_)
  intro col hcol
  simp only [fallbackSpec, fallbackMismatchCount, nullSafeEq_eq_decide, colEntry]
  simp [hc0]

/-- C9: when direct index alignment on the primary key fails (the filtered
sides' key-tuple sequences differ, as with duplicate key values),
`compare_values` recovers through the outer-merge fallback: the compared
pairs are exactly the previous-by-current row pairs agreeing on the key
tuple (the `indicator == both` merge rows), counted per non-key column with
the same null-safe equality, and a normal diff result is returned with no
error. -/
theorem c9_merge_fallback_recovery {α : Type} [DecidableEq α] (sd : SchemaDiff)
    (cur prev : DataFrame α) (pks : List String)
    (hlen : cur.rows.length = prev.rows.length)
    (hne : ¬(cur.rows.length = 0 ∧ prev.rows.length = 0))
    (hpks : pks ≠ [])
    (hvalid : ∀ pk ∈ pks, pk ∈ commonColsOf sd cur prev)
    (hkeys : (filteredCurrent cur prev (commonColsOf sd cur prev)).map
          (pkTuple (commonColsOf sd cur prev) pks)
        ≠ (filteredPrevious cur prev (commonColsOf sd cur prev)).map
          (pkTuple (commonColsOf sd cur prev) pks)) :
    (∀ rp rc, (rp, rc) ∈ mergeBothPairs (commonColsOf sd cur prev) pks
          (filteredCurrent cur prev (commonColsOf sd cur prev))
          (filteredPrevious cur prev (commonColsOf sd cur prev)) ↔
        (rp ∈ filteredPrevious cur prev (commonColsOf sd cur prev) ∧
         rc ∈ filteredCurrent cur prev (commonColsOf sd cur prev) ∧
         pkTuple (commonColsOf sd cur prev) pks rc
           = pkTuple (commonColsOf sd cur prev) pks rp)) ∧
    ∃ d, compareValues sd cur prev pks = .ok d ∧
      d.columns_with_value_changes = some
        (fallbackSpec (commonColsOf sd cur prev) pks
          (filteredCurrent cur prev (commonColsOf sd cur prev))
          (filteredPrevious cur prev (commonColsOf sd cur prev)) cur.rows.length) := by
  have hc0 : cur.rows.length ≠ 0 := by omega
  constructor
  · intro rp rc
    simp only [mergeBothPairs, List.mem_flatMap, List.mem_map, List.mem_filter,
      beq_iff_eq, Prod.mk.injEq]
    constructor
    · rintro ⟨rp', hrp', rc', ⟨hrc', hkey⟩, rfl, rfl⟩
      exact ⟨hrp', hrc', hkey⟩
    · rintro ⟨hrp, hrc, hkey⟩
      exact ⟨rp, hrp, rc, ⟨hrc, hkey⟩, rfl, rfl⟩
  · exact ⟨_, compareValues_full sd cur prev pks _ hlen hne
      (valueChangesOf_fallback _ _ _ _ _ hpks hvalid hkeys hc0), rfl⟩

/-- Witness for C9: duplicate key `1` on the current side; the fallback
pairs previous row `(1, 10)` with both current rows and reports two changed
rows in column `v`. -/
theorem c9_merge_fallback_recovery_witness :
    (∀ rp rc, (rp, rc) ∈ mergeBothPairs (commonColsOf (compareSchema c9Cur c9Prev) c9Cur c9Prev)
          ["id"]
          (filteredCurrent c9Cur c9Prev
            (commonColsOf (compareSchema c9Cur c9Prev) c9Cur c9Prev))
          (filteredPrevious c9Cur c9Prev
            (commonColsOf (compareSchema c9Cur c9Prev) c9Cur c9Prev)) ↔
        (rp ∈ filteredPrevious c9Cur c9Prev
            (commonColsOf (compareSchema c9Cur c9Prev) c9Cur c9Prev) ∧
         rc ∈ filteredCurrent c9Cur c9Prev
            (commonColsOf (compareSchema c9Cur c9Prev) c9Cur c9Prev) ∧
         pkTuple (commonColsOf (compareSchema c9Cur c9Prev) c9Cur c9Prev) ["id"] rc
           = pkTuple (commonColsOf (compareSchema c9Cur c9Prev) c9Cur c9Prev) ["id"] rp)) ∧
    ∃ d, compareValues (compareSchema c9Cur c9Prev) c9Cur c9Prev ["id"] = .ok d ∧
      d.columns_with_value_changes = some
        (fallbackSpec (commonColsOf (compareSchema c9Cur c9Prev) c9Cur c9Prev) ["id"]
          (filteredCurrent c9Cur c9Prev
            (commonColsOf (compareSchema c9Cur c9Prev) c9Cur c9Prev))
          (filteredPrevious c9Cur c9Prev
            (commonColsOf (compareSchema c9Cur c9Prev) c9Cur c9Prev))
          c9Cur.rows.length) :=
  c9_merge_fallback_recovery (compareSchema c9Cur c9Prev) c9Cur c9Prev ["id"]
    rfl (by decide) (by decide) (by decide) (by decide)

/-! ### C6 -/

/-- C6: for tables with the same columns and dtypes whose rows are a
permutation of each other (same multiset of rows, any order), and any
declared key drawn from the columns, the value diff reports a zero row-count
difference and an empty `columns_with_value_changes` map. -/
theorem c6_row_order_invariance {α : Type} [DecidableEq α] (cur prev : DataFrame α)
    (pks : List String)
    (hcols : cur.colNames = prev.colNames)
    (hdt : cur.dtypes = prev.dtypes)
    (hperm : List.Perm cur.rows prev.rows)
    (hpk : ∀ pk ∈ pks, pk ∈ cur.colNames) :
    ∃ d, compareValues (compareSchema cur prev) cur prev pks = .ok d ∧
      d.row_count_change.difference = 0 ∧
      d.columns_with_value_changes = some [] := by
  obtain ⟨pcols, pdts, prows⟩ := prev
  simp only at hcols hdt hperm
  subst hcols
  subst hdt
  have hlen : cur.rows.length = prows.length := hperm.length_eq
  by_cases hemp : cur.rows.length = 0 ∧ prows.length = 0
  · unfold compareValues
    rw [if_neg (by dsimp only; omega), if_pos (by exact ⟨hemp.1, hemp.2⟩)]
    exact ⟨_, rfl, rfl, rfl⟩
  · have hc0 : cur.rows.length ≠ 0 := by omega
    have hdty : ∀ c, dtypeAt (⟨cur.colNames, cur.dtypes, prows⟩ : DataFrame α) c
        = dtypeAt cur c := fun c => rfl
    have htc : (compareSchema cur ⟨cur.colNames, cur.dtypes, prows⟩).type_changes = [] := by
      unfold compareSchema
      simp only [List.filterMap_eq_nil_iff]
      intro c hc
      simp [hdty]
    have hcommon : commonColsOf (compareSchema cur ⟨cur.colNames, cur.dtypes, prows⟩)
        cur ⟨cur.colNames, cur.dtypes, prows⟩ = cur.colNames := by
      unfold commonColsOf
      rw [List.filter_eq_self]
      intro c hc
      simp [incompatibleTypeCols, htc, hc]
    have hproj : List.Perm (projectRows cur cur.colNames)
        (projectRows (⟨cur.colNames, cur.dtypes, prows⟩ : DataFrame α) cur.colNames) := by
      unfold projectRows
      exact hperm.map _
    have hfC : filteredCurrent cur (⟨cur.colNames, cur.dtypes, prows⟩ : DataFrame α)
        cur.colNames = [] := by
      unfold filteredCurrent
      rw [List.filter_eq_nil_iff]
      intro r hr
      have h1 : 0 < (projectRows cur cur.colNames).count r := List.count_pos_iff.mpr hr
      have h2 : (projectRows cur cur.colNames).count r
          = (projectRows (⟨cur.colNames, cur.dtypes, prows⟩ : DataFrame α)
              cur.colNames).count r := hproj.countP_eq _
      simp only [List.count_append, beq_iff_eq]
      omega
    have hfP : filteredPrevious cur (⟨cur.colNames, cur.dtypes, prows⟩ : DataFrame α)
        cur.colNames = [] := by
      unfold filteredPrevious
      rw [List.filter_eq_nil_iff]
      intro r hr
      have h1 : 0 < (projectRows (⟨cur.colNames, cur.dtypes, prows⟩ : DataFrame α)
          cur.colNames).count r := List.count_pos_iff.mpr hr
      have h2 : (projectRows cur cur.colNames).count r
          = (projectRows (⟨cur.colNames, cur.dtypes, prows⟩ : DataFrame α)
              cur.colNames).count r := hproj.countP_eq _
      simp only [List.count_append, beq_iff_eq]
      omega
    have hfC2 : filteredCurrent cur (⟨cur.colNames, cur.dtypes, prows⟩ : DataFrame α)
        (commonColsOf (compareSchema cur ⟨cur.colNames, cur.dtypes, prows⟩)
          cur ⟨cur.colNames, cur.dtypes, prows⟩) = [] := by
      rw [hcommon]
      exact hfC
    have hfP2 : filteredPrevious cur (⟨cur.colNames, cur.dtypes, prows⟩ : DataFrame α)
        (commonColsOf (compareSchema cur ⟨cur.colNames, cur.dtypes, prows⟩)
          cur ⟨cur.colNames, cur.dtypes, prows⟩) = [] := by
      rw [hcommon]
      exact hfP
    cases pks with
    | nil =>
      have hvc : valueChangesOf
          (commonColsOf (compareSchema cur ⟨cur.colNames, cur.dtypes, prows⟩)
            cur ⟨cur.colNames, cur.dtypes, prows⟩) []
          (filteredCurrent cur ⟨cur.colNames, cur.dtypes, prows⟩
            (commonColsOf (compareSchema cur ⟨cur.colNames, cur.dtypes, prows⟩)
              cur ⟨cur.colNames, cur.dtypes, prows⟩))
          (filteredPrevious cur ⟨cur.colNames, cur.dtypes, prows⟩
            (commonColsOf (compareSchema cur ⟨cur.colNames, cur.dtypes, prows⟩)
              cur ⟨cur.colNames, cur.dtypes, prows⟩))
          cur.rows.length = .ok [] := by
        unfold valueChangesOf
        rfl
      refine ⟨_, compareValues_full _ _ _ _ _ hlen hemp hvc, by simp [hlen], rfl⟩
    | cons p ps =>
      have hvalid : ∀ pk ∈ p :: ps,
          pk ∈ commonColsOf (compareSchema cur ⟨cur.colNames, cur.dtypes, prows⟩)
            cur ⟨cur.colNames, cur.dtypes, prows⟩ := by
        rw [hcommon]
        exact hpk
      have hvc := valueChangesOf_fast
        (commonColsOf (compareSchema cur ⟨cur.colNames, cur.dtypes, prows⟩)
          cur ⟨cur.colNames, cur.dtypes, prows⟩) (p :: ps)
        (filteredCurrent cur ⟨cur.colNames, cur.dtypes, prows⟩
          (commonColsOf (compareSchema cur ⟨cur.colNames, cur.dtypes, prows⟩)
            cur ⟨cur.colNames, cur.dtypes, prows⟩))
        (filteredPrevious cur ⟨cur.colNames, cur.dtypes, prows⟩
          (commonColsOf (compareSchema cur ⟨cur.colNames, cur.dtypes, prows⟩)
            cur ⟨cur.colNames, cur.dtypes, prows⟩))
        cur.rows.length (by simp) hvalid (by rw [hfC2, hfP2]) hc0
      have hspec : fastPathSpec
          (commonColsOf (compareSchema cur ⟨cur.colNames, cur.dtypes, prows⟩)
            cur ⟨cur.colNames, cur.dtypes, prows⟩) (p :: ps)
          (filteredCurrent cur ⟨cur.colNames, cur.dtypes, prows⟩
            (commonColsOf (compareSchema cur ⟨cur.colNames, cur.dtypes, prows⟩)
              cur ⟨cur.colNames, cur.dtypes, prows⟩))
          (filteredPrevious cur ⟨cur.colNames, cur.dtypes, prows⟩
            (commonColsOf (compareSchema cur ⟨cur.colNames, cur.dtypes, prows⟩)
              cur ⟨cur.colNames, cur.dtypes, prows⟩))
          cur.rows.length = [] := by
        rw [hfC2, hfP2]
        simp [fastPathSpec]
      rw [hspec] at hvc
      refine ⟨_, compareValues_full _ _ _ _ _ hlen hemp hvc, by simp [hlen], rfl⟩

/-- Witness for C6: the same two keyed rows in swapped order give a zero
difference and no value changes. -/
theorem c6_row_order_invariance_witness :
    ∃ d, compareValues (compareSchema c6Cur c6Prev) c6Cur c6Prev ["id"] = .ok d ∧
      d.row_count_change.difference = 0 ∧
      d.columns_with_value_changes = some [] :=
  c6_row_order_invariance c6Cur c6Prev ["id"] rfl rfl
    (List.isPerm_iff.mp (by decide)) (by decide)

end DFComparator
